import Mathlib

/-!
Shallow embedding of the fertilizer-recommendation Flask app (src/app.py).

The app keeps two process-wide slots (a trained classifier and a dict of
label encoders), loads them once at startup, and serves three routes.
Numbers that flow through `/predict` are only passed from the request body
to the opaque classifier, never computed with, so Python floats are
modelled as rationals.  The opaque pickled classifier is modelled as an
arbitrary function from the 9-element feature vector to a natural-number
label; the opaque per-field LabelEncoder is modelled by its `classes_`
list of labels, with `transform` returning the index in that list.
-/

namespace FertilizerApp

/-- A JSON scalar value as it arrives in the request body for a single
field.  `request.json` turns JSON numbers into Python numbers and JSON
strings into Python strings.  A JSON `null` becomes Python `None`, which
is indistinguishable from an absent key through `dict.get`, so both are
modelled as `Option.none` at the lookup. -/
inductive JsonValue where
  | num (q : ℚ)
  | str (s : String)
deriving DecidableEq, Repr

/-- The request body: a JSON object, i.e. an association list from field
names to values.  `data.get(k)` is `List.lookup k`. -/
abbrev RequestData := List (String × JsonValue)

/-- Value of a digit sequence, `['1','2','3']` to `123`. -/
def digitsVal (cs : List Char) : ℕ :=
  cs.foldl (fun a c => 10 * a + (c.toNat - 48)) 0

/-- Strip leading and trailing whitespace from a character sequence. -/
def trimChars (cs : List Char) : List Char :=
  ((cs.dropWhile Char.isWhitespace).reverse.dropWhile Char.isWhitespace).reverse

/-- Split a character sequence at every dot, like `str.split` at a
separator: `n` dots yield `n + 1` parts. -/
def splitOnDot : List Char → List (List Char)
  | [] => [[]]
  | c :: rest =>
    let r := splitOnDot rest
    if c = '.' then [] :: r
    else
      match r with
      | [] => [[c]]
      | p :: ps => (c :: p) :: ps

/-- The unsigned part of a decimal literal: digits with at most one
decimal point and at least one digit overall, scaled by the sign. -/
def parseFloatBody (sgn : ℚ) (body : List Char) : Option ℚ :=
  match splitOnDot body with
  | [intPart] =>
      if intPart.length > 0 && intPart.all Char.isDigit then
        some (sgn * (digitsVal intPart : ℚ))
      else none
  | [intPart, fracPart] =>
      if (intPart.length > 0 || fracPart.length > 0)
          && intPart.all Char.isDigit && fracPart.all Char.isDigit then
        some (sgn * ((digitsVal intPart : ℚ)
          + (digitsVal fracPart : ℚ) / (10 ^ fracPart.length : ℚ)))
      else none
  | _ => none

/-- Python `float(s)` on a string, modelled for finite decimal literals:
optional surrounding whitespace, optional sign, digits with at most one
decimal point.  Returns `none` where Python raises `ValueError`.
(Exponent, `inf` and `nan` forms are not modelled; no claim depends on
them.) -/
def parseFloat (s : String) : Option ℚ :=
  match trimChars s.toList with
  | '-' :: body => parseFloatBody (-1) body
  | '+' :: body => parseFloatBody 1 body
  | body => parseFloatBody 1 body

/-- Python `float(x)` applied to the result of `data.get(field)`:
`float(None)` raises `TypeError` (the key was missing or null),
`float` of a number succeeds, `float` of a string parses it or raises
`ValueError`.  `none` marks the raising cases; both exception types are
caught by the same `except (TypeError, ValueError)` clause. -/
def pyFloat (v : Option JsonValue) : Option ℚ :=
  match v with
  | none => none
  | some (.num q) => some q
  | some (.str s) => parseFloat s

/-- Python `str(x)` as used by the f-string error messages, on the result
of `data.get(field)`: `str(None)` is `"None"`, a string interpolates
as itself.  (`str` of a Python number is approximated by the rational
literal; no claim evaluates it.) -/
def pyStr (v : Option JsonValue) : String :=
  match v with
  | none => "None"
  | some (.str s) => s
  | some (.num q) => toString q

/-- A fitted `LabelEncoder` for one categorical field: its `classes_`
array, a finite ordered list of known labels. -/
structure Encoder where
  classes : List String
deriving DecidableEq, Repr

/-- `LabelEncoder.transform([s])[0]`: the integer code of a known label
is its index in `classes_`. -/
def Encoder.transform (e : Encoder) (s : String) : ℕ :=
  e.classes.indexOf s

/-- Python `x in encoder.classes_` for the looked-up request value:
only a string can be a member of the string array; `None` or a number
is never a member. -/
def isMember (v : Option JsonValue) (classes : List String) : Bool :=
  match v with
  | some (.str s) => classes.contains s
  | _ => false

/-- `transform` applied to the looked-up request value.  In the code this
runs only after the membership check, so `v` is a known string there;
the other cases are unreachable and return an out-of-range index. -/
def transformVal (e : Encoder) (v : Option JsonValue) : ℕ :=
  match v with
  | some (.str s) => e.transform s
  | _ => e.classes.length

/-- The pickled `label_encoders` dict: one fitted encoder under the key
Soil and one under the key Crop. -/
structure EncoderSet where
  soil : Encoder
  crop : Encoder
deriving DecidableEq, Repr

/-- The pickled decision-tree model, consumed as a black box:
`model.predict(features)[0]` maps the 9-element numeric feature vector
to an integer class label. -/
def Classifier : Type := List ℚ → ℕ

/-- The process-wide globals `model` and `label_encoders`, each an
optional slot initialised to `None`. -/
structure AssetState where
  model : Option Classifier
  label_encoders : Option EncoderSet

/-- Why an artifact failed to load: the file was missing
(`FileNotFoundError`) or deserialization failed for any other reason. -/
inductive LoadErr where
  | fileNotFound
  | corrupt (msg : String)
deriving DecidableEq, Repr

/-- `load_assets()`: the two pickle loads run in order inside one `try`.
If the model load raises, the handler sets both globals to `None`
(the encoder load never runs).  If the model load succeeds but the
encoder load raises, the handler again sets both to `None`, discarding
the already-assigned model.  Both `except` clauses reset both slots, so
they need not be distinguished here. -/
def load_assets (loadModel : Except LoadErr Classifier)
    (loadEncoders : Except LoadErr EncoderSet) : AssetState :=
  match loadModel with
  | .error _ => ⟨none, none⟩
  | .ok m =>
    match loadEncoders with
    | .error _ => ⟨none, none⟩
    | .ok le => ⟨some m, some le⟩

/-- `FERTILIZER_MAPPING`: the static dict from model output label to
readable fertilizer name. -/
def FERTILIZER_MAPPING : List (ℕ × String) :=
  [(0, "Balanced NPK Fertilizer"),
   (1, "Compost"),
   (2, "DAP"),
   (3, "General Purpose Fertilizer"),
   (4, "Gypsum"),
   (5, "Lime"),
   (6, "Muriate of Potash"),
   (7, "Organic Fertilizer"),
   (8, "Urea"),
   (9, "Water Retaining Fertilizer")]

/-- `FERTILIZER_MAPPING.get(label, "Unknown Fertilizer")`. -/
def fertilizerName (label : ℕ) : String :=
  (FERTILIZER_MAPPING.lookup label).getD "Unknown Fertilizer"

/-- The body of an HTTP response, distinguishing rendered HTML pages from
JSON payloads.  `jsonError m` is the JSON object with the single key
`error` bound to `m`; `jsonSuccess n` is the JSON object with
`success: true` and `fertilizer_recommendation: n`. -/
inductive Body where
  | htmlPage (template : String)
  | htmlError (message : String)
  | htmlForm (soil_options crop_options : List String)
  | jsonError (error : String)
  | jsonSuccess (fertilizer_recommendation : String)
deriving DecidableEq, Repr

/-- An HTTP response: status code and body. -/
structure Resp where
  status : ℕ
  body : Body
deriving DecidableEq, Repr

/-- The result of `get_categorical_options()`: the dict with keys
Soil and Crop. -/
structure CategoricalOptions where
  soilOptions : List String
  cropOptions : List String
deriving DecidableEq, Repr

/-- `get_categorical_options()`: when `label_encoders` is falsy (it is
either `None` or a loaded non-empty dict with the two keys) return empty
lists, otherwise `classes_.tolist()` of each encoder, in the encoder's
own order. -/
def get_categorical_options (label_encoders : Option EncoderSet) :
    CategoricalOptions :=
  match label_encoders with
  | none => ⟨[], []⟩
  | some encs => ⟨encs.soil.classes, encs.crop.classes⟩

/-- Route `GET /`: renders the landing page unconditionally. -/
def home : Resp := ⟨200, .htmlPage "home.html"⟩

/-- Route `GET /recommend`: a 500 error page when either asset slot is
absent, otherwise the form page populated from the catalog. -/
def recommend_form (st : AssetState) : Resp :=
  if st.model.isNone || st.label_encoders.isNone then
    ⟨500, .htmlError
      "Application assets (model/encoders) failed to load. Please check server logs."⟩
  else
    let options := get_categorical_options st.label_encoders
    ⟨200, .htmlForm options.soilOptions options.cropOptions⟩

/-- The seven required numeric fields, in the order the handler coerces
them. -/
def numericFields : List String :=
  ["Temperature", "Moisture", "PH", "Nitrogen", "Phosphorous",
   "Potassium", "Carbon"]

/-- The seven sequential `float(data.get(...))` coercions at the top of
the `try` block.  The first raising coercion aborts the block (`none`);
otherwise all seven values are produced. -/
def coerce7 (data : RequestData) :
    Option (ℚ × ℚ × ℚ × ℚ × ℚ × ℚ × ℚ) :=
  match pyFloat (data.lookup "Temperature") with
  | none => none
  | some temp =>
  match pyFloat (data.lookup "Moisture") with
  | none => none
  | some moisture =>
  match pyFloat (data.lookup "PH") with
  | none => none
  | some ph =>
  match pyFloat (data.lookup "Nitrogen") with
  | none => none
  | some nitrogen =>
  match pyFloat (data.lookup "Phosphorous") with
  | none => none
  | some phosphorous =>
  match pyFloat (data.lookup "Potassium") with
  | none => none
  | some potassium =>
  match pyFloat (data.lookup "Carbon") with
  | none => none
  | some carbon =>
  some (temp, moisture, ph, nitrogen, phosphorous, potassium, carbon)

/-- Route `POST /predict`.  Mirrors the handler: the absent-assets guard
returns 500; a raising numeric coercion is caught as the single
aggregate invalid-input 400; an unknown soil, then an unknown crop,
return 400 naming the field and the value; otherwise the two codes are
appended to the seven numbers in the fixed order, the classifier runs on
the 9-element vector, and its label is looked up with the fallback. -/
def predict (st : AssetState) (data : RequestData) : Resp :=
  match st.model, st.label_encoders with
  | some clf, some encs =>
    match coerce7 data with
    | none =>
        ⟨400, .jsonError
          "Invalid input. Ensure all numerical fields are filled correctly."⟩
    | some (temp, moisture, ph, nitrogen, phosphorous, potassium, carbon) =>
        let soil := data.lookup "Soil"
        let crop := data.lookup "Crop"
        if isMember soil encs.soil.classes = false then
          ⟨400, .jsonError ("Unknown Soil Type: '" ++ pyStr soil ++ "'")⟩
        else if isMember crop encs.crop.classes = false then
          ⟨400, .jsonError ("Unknown Crop Type: '" ++ pyStr crop ++ "'")⟩
        else
          let soil_enc := transformVal encs.soil soil
          let crop_enc := transformVal encs.crop crop
          let features : List ℚ :=
            [temp, moisture, ph, nitrogen, phosphorous,
             potassium, carbon, (soil_enc : ℚ), (crop_enc : ℚ)]
          let encoded_output := clf features
          ⟨200, .jsonSuccess (fertilizerName encoded_output)⟩
  | _, _ => ⟨500, .jsonError "Model not loaded."⟩

/-- Whether a response body is the JSON object with the single key
`error` (as produced by `jsonify` in the error branches), as opposed to
a rendered HTML page or a success payload. -/
def isJsonError (b : Body) : Bool :=
  match b with
  | .jsonError _ => true
  | _ => false

/-- A sample encoder-set for instantiating theorems on concrete inputs. -/
def sampleEncoders : EncoderSet :=
  ⟨⟨["Clayey", "Loamy", "Sandy"]⟩, ⟨["Maize", "Wheat"]⟩⟩

/-- A sample classifier that always answers label 8 (Urea). -/
def sampleClassifier : Classifier := fun _ => 8

/-- A sample classifier answering label 11, outside the name table. -/
def sampleClassifier11 : Classifier := fun _ => 11

/-- A well-formed sample request body. -/
def sampleRequest : RequestData :=
  [("Temperature", .num 25), ("Moisture", .num 60), ("PH", .num (13/2)),
   ("Nitrogen", .num 20), ("Phosphorous", .num 15), ("Potassium", .num 10),
   ("Carbon", .num 1), ("Soil", .str "Loamy"), ("Crop", .str "Wheat")]

/-- The sample request with an unknown crop value. -/
def sampleRequestBadCrop : RequestData :=
  [("Temperature", .num 25), ("Moisture", .num 60), ("PH", .num (13/2)),
   ("Nitrogen", .num 20), ("Phosphorous", .num 15), ("Potassium", .num 10),
   ("Carbon", .num 1), ("Soil", .str "Loamy"), ("Crop", .str "Mango")]

/-- The sample request with an unknown soil value. -/
def sampleRequestBadSoil : RequestData :=
  [("Temperature", .num 25), ("Moisture", .num 60), ("PH", .num (13/2)),
   ("Nitrogen", .num 20), ("Phosphorous", .num 15), ("Potassium", .num 10),
   ("Carbon", .num 1), ("Soil", .str "Martian"), ("Crop", .str "Wheat")]

/-- The sample request with a non-numeric temperature. -/
def sampleRequestBadNumeric : RequestData :=
  [("Temperature", .str "abc"), ("Moisture", .num 60), ("PH", .num (13/2)),
   ("Nitrogen", .num 20), ("Phosphorous", .num 15), ("Potassium", .num 10),
   ("Carbon", .num 1), ("Soil", .str "Loamy"), ("Crop", .str "Wheat")]

/-- The sample request with the Soil key absent. -/
def sampleRequestNoSoil : RequestData :=
  [("Temperature", .num 25), ("Moisture", .num 60), ("PH", .num (13/2)),
   ("Nitrogen", .num 20), ("Phosphorous", .num 15), ("Potassium", .num 10),
   ("Carbon", .num 1), ("Crop", .str "Wheat")]

/-- The sample request with the Crop key absent. -/
def sampleRequestNoCrop : RequestData :=
  [("Temperature", .num 25), ("Moisture", .num 60), ("PH", .num (13/2)),
   ("Nitrogen", .num 20), ("Phosphorous", .num 15), ("Potassium", .num 10),
   ("Carbon", .num 1), ("Soil", .str "Loamy")]

/-! ## Theorems -/

/-- The seven sequential coercions all succeed on their given values. -/
theorem coerce7_eq_some (data : RequestData)
    (temp moisture ph nitrogen phosphorous potassium carbon : ℚ)
    (h1 : pyFloat (data.lookup "Temperature") = some temp)
    (h2 : pyFloat (data.lookup "Moisture") = some moisture)
    (h3 : pyFloat (data.lookup "PH") = some ph)
    (h4 : pyFloat (data.lookup "Nitrogen") = some nitrogen)
    (h5 : pyFloat (data.lookup "Phosphorous") = some phosphorous)
    (h6 : pyFloat (data.lookup "Potassium") = some potassium)
    (h7 : pyFloat (data.lookup "Carbon") = some carbon) :
    coerce7 data =
      some (temp, moisture, ph, nitrogen, phosphorous, potassium, carbon) := by
  simp only [coerce7, h1, h2, h3, h4, h5, h6, h7]

/-- A failing coercion among the seven fields aborts the block. -/
theorem coerce7_none_of_fail (data : RequestData)
    (h : ∃ f ∈ numericFields, pyFloat (data.lookup f) = none) :
    coerce7 data = none := by
  obtain ⟨f, hf, hnone⟩ := h
  cases e1 : pyFloat (data.lookup "Temperature") with
  | none => simp [coerce7, e1]
  | some t =>
  cases e2 : pyFloat (data.lookup "Moisture") with
  | none => simp [coerce7, e1, e2]
  | some m =>
  cases e3 : pyFloat (data.lookup "PH") with
  | none => simp [coerce7, e1, e2, e3]
  | some ph =>
  cases e4 : pyFloat (data.lookup "Nitrogen") with
  | none => simp [coerce7, e1, e2, e3, e4]
  | some n =>
  cases e5 : pyFloat (data.lookup "Phosphorous") with
  | none => simp [coerce7, e1, e2, e3, e4, e5]
  | some p =>
  cases e6 : pyFloat (data.lookup "Potassium") with
  | none => simp [coerce7, e1, e2, e3, e4, e5, e6]
  | some k =>
  cases e7 : pyFloat (data.lookup "Carbon") with
  | none => simp [coerce7, e1, e2, e3, e4, e5, e6, e7]
  | some c =>
    exfalso
    simp only [numericFields, List.mem_cons, List.not_mem_nil, or_false,
      List.mem_singleton] at hf
    rcases hf with rfl | rfl | rfl | rfl | rfl | rfl | rfl <;> simp_all

/-- On the happy path `predict` runs the classifier on the assembled
vector and answers 200 with the looked-up name. -/
theorem predict_success_eq (clf : Classifier) (encs : EncoderSet)
    (data : RequestData)
    (temp moisture ph nitrogen phosphorous potassium carbon : ℚ)
    (hc7 : coerce7 data =
      some (temp, moisture, ph, nitrogen, phosphorous, potassium, carbon))
    (soilS cropS : String)
    (hs : data.lookup "Soil" = some (.str soilS))
    (hcr : data.lookup "Crop" = some (.str cropS))
    (hsm : encs.soil.classes.contains soilS = true)
    (hcm : encs.crop.classes.contains cropS = true) :
    predict ⟨some clf, some encs⟩ data =
      ⟨200, .jsonSuccess (fertilizerName (clf
        [temp, moisture, ph, nitrogen, phosphorous, potassium, carbon,
         (encs.soil.transform soilS : ℚ),
         (encs.crop.transform cropS : ℚ)]))⟩ := by
  have hsm' : soilS ∈ encs.soil.classes := by simpa using hsm
  have hcm' : cropS ∈ encs.crop.classes := by simpa using hcm
  simp [predict, hc7, hs, hcr, isMember, hsm', hcm', transformVal]

/-- C2: if either artifact load fails — including the case where the
classifier loaded successfully and only the encoder-set load failed —
`load_assets` leaves both process-wide slots absent; no outcome of
`load_assets` has exactly one slot loaded. -/
theorem load_assets_no_partial_success
    (lm : Except LoadErr Classifier) (le : Except LoadErr EncoderSet) :
    (((∃ e, lm = .error e) ∨ (∃ e, le = .error e)) →
      load_assets lm le = ⟨none, none⟩) ∧
    ((load_assets lm le).model.isSome ↔
      (load_assets lm le).label_encoders.isSome) := by
  constructor
  · rintro (⟨e, rfl⟩ | ⟨e, rfl⟩)
    · rfl
    · cases lm <;> rfl
  · cases lm <;> cases le <;> simp [load_assets]

theorem load_assets_no_partial_success_witness :
    load_assets (.ok (fun _ => 8)) (.error (LoadErr.corrupt "bad pickle")) =
      ⟨none, none⟩ :=
  (load_assets_no_partial_success _ _).1 (Or.inr ⟨_, rfl⟩)

/-- C3: with either asset slot absent, `/recommend` and `/predict` both
return status 500 with a fixed error body, independent of the request
and of whatever the other slot holds — so neither handler goes on to
touch the encoder-set or the classifier. -/
theorem absent_assets_yield_500
    (st : AssetState) (data : RequestData)
    (h : st.model = none ∨ st.label_encoders = none) :
    recommend_form st = ⟨500, .htmlError
      "Application assets (model/encoders) failed to load. Please check server logs."⟩ ∧
    predict st data = ⟨500, .jsonError "Model not loaded."⟩ := by
  obtain ⟨m, le⟩ := st
  rcases h with h | h <;> subst h
  · exact ⟨by simp [recommend_form], by cases le <;> rfl⟩
  · exact ⟨by simp [recommend_form], by cases m <;> rfl⟩

theorem absent_assets_yield_500_witness :
    recommend_form ⟨none, none⟩ = ⟨500, .htmlError
      "Application assets (model/encoders) failed to load. Please check server logs."⟩ ∧
    predict ⟨none, none⟩ [] = ⟨500, .jsonError "Model not loaded."⟩ :=
  absent_assets_yield_500 ⟨none, none⟩ [] (Or.inl rfl)

/-- C7: with the encoder-set loaded, the catalog returns exactly each
encoder's class list, in the encoder's own stored order, for the Soil
and Crop fields; and in every state `load_assets` can produce in which a
slot is absent, the catalog returns empty lists for both fields rather
than failing. -/
theorem get_categorical_options_spec
    (encs : EncoderSet) (lm : Except LoadErr Classifier)
    (le : Except LoadErr EncoderSet)
    (habs : (load_assets lm le).model = none ∨
      (load_assets lm le).label_encoders = none) :
    get_categorical_options (some encs) =
      ⟨encs.soil.classes, encs.crop.classes⟩ ∧
    get_categorical_options (load_assets lm le).label_encoders = ⟨[], []⟩ := by
  refine ⟨rfl, ?_⟩
  cases lm <;> cases le <;> first
    | rfl
    | simp_all [load_assets, get_categorical_options]

theorem get_categorical_options_spec_witness :
    get_categorical_options
        (some ⟨⟨["Clayey", "Loamy", "Sandy"]⟩, ⟨["Maize", "Wheat"]⟩⟩) =
      ⟨["Clayey", "Loamy", "Sandy"], ["Maize", "Wheat"]⟩ ∧
    get_categorical_options
        (load_assets (.error .fileNotFound)
          (.error .fileNotFound)).label_encoders = ⟨[], []⟩ :=
  get_categorical_options_spec _ (.error .fileNotFound) (.error .fileNotFound)
    (Or.inl rfl)

/-- C9: `/predict` is a pure function of the loaded asset state and the
input record: two runs with the same state and equal request bodies
produce equal responses, and the handler returns a value without
touching any other state. -/
theorem predict_deterministic (st : AssetState) (d1 d2 : RequestData)
    (h : d1 = d2) : predict st d1 = predict st d2 := by rw [h]

theorem predict_deterministic_witness :
    predict ⟨none, none⟩ [] = predict ⟨none, none⟩ [] :=
  predict_deterministic ⟨none, none⟩ [] [] rfl

/-- C1: for every input record whose seven numeric fields coerce and
whose categorical values are known labels, `/predict` invokes the
classifier on exactly the 9-element vector [temperature, moisture, ph,
nitrogen, phosphorous, potassium, carbon, soil_code, crop_code], where
the two codes are the encoders' integer codes of the validated values,
and answers with the name looked up for the resulting label. -/
theorem predict_feature_vector_order
    (clf : Classifier) (encs : EncoderSet) (data : RequestData)
    (temp moisture ph nitrogen phosphorous potassium carbon : ℚ)
    (h1 : pyFloat (data.lookup "Temperature") = some temp)
    (h2 : pyFloat (data.lookup "Moisture") = some moisture)
    (h3 : pyFloat (data.lookup "PH") = some ph)
    (h4 : pyFloat (data.lookup "Nitrogen") = some nitrogen)
    (h5 : pyFloat (data.lookup "Phosphorous") = some phosphorous)
    (h6 : pyFloat (data.lookup "Potassium") = some potassium)
    (h7 : pyFloat (data.lookup "Carbon") = some carbon)
    (soilS cropS : String)
    (hs : data.lookup "Soil" = some (.str soilS))
    (hcr : data.lookup "Crop" = some (.str cropS))
    (hsm : encs.soil.classes.contains soilS = true)
    (hcm : encs.crop.classes.contains cropS = true) :
    predict ⟨some clf, some encs⟩ data =
      ⟨200, .jsonSuccess (fertilizerName (clf
        [temp, moisture, ph, nitrogen, phosphorous, potassium, carbon,
         (encs.soil.transform soilS : ℚ),
         (encs.crop.transform cropS : ℚ)]))⟩ :=
  predict_success_eq clf encs data temp moisture ph nitrogen phosphorous
    potassium carbon
    (coerce7_eq_some data _ _ _ _ _ _ _ h1 h2 h3 h4 h5 h6 h7)
    soilS cropS hs hcr hsm hcm

theorem predict_feature_vector_order_witness :
    predict ⟨some sampleClassifier, some sampleEncoders⟩ sampleRequest =
      ⟨200, .jsonSuccess "Urea"⟩ :=
  (predict_feature_vector_order sampleClassifier sampleEncoders sampleRequest
    25 60 (13/2) 20 15 10 1 rfl rfl rfl rfl rfl rfl rfl
    "Loamy" "Wheat" rfl rfl (by decide) (by decide)).trans (by decide)

/-- C6: on the happy path the classifier's output label is mapped
through the Fertilizer Name Table with status 200: every table entry
(labels 0 through 9) maps to its name, and any label outside the table,
such as 11, maps to the fallback string rather than an error. -/
theorem predict_label_lookup_fallback
    (clf : Classifier) (encs : EncoderSet) (data : RequestData)
    (temp moisture ph nitrogen phosphorous potassium carbon : ℚ)
    (hc7 : coerce7 data =
      some (temp, moisture, ph, nitrogen, phosphorous, potassium, carbon))
    (soilS cropS : String)
    (hs : data.lookup "Soil" = some (.str soilS))
    (hcr : data.lookup "Crop" = some (.str cropS))
    (hsm : encs.soil.classes.contains soilS = true)
    (hcm : encs.crop.classes.contains cropS = true)
    (label : ℕ)
    (hlabel : clf
      [temp, moisture, ph, nitrogen, phosphorous, potassium, carbon,
       (encs.soil.transform soilS : ℚ), (encs.crop.transform cropS : ℚ)]
      = label) :
    predict ⟨some clf, some encs⟩ data =
      ⟨200, .jsonSuccess (fertilizerName label)⟩ ∧
    (∀ n name, (n, name) ∈ FERTILIZER_MAPPING → fertilizerName n = name) ∧
    (∀ n, 10 ≤ n → fertilizerName n = "Unknown Fertilizer") := by
  refine ⟨?_, ?_, ?_⟩
  · rw [← hlabel]
    exact predict_success_eq clf encs data temp moisture ph nitrogen
      phosphorous potassium carbon hc7 soilS cropS hs hcr hsm hcm
  · intro n name hmem
    fin_cases hmem <;> rfl
  · intro n hn
    obtain ⟨k, rfl⟩ : ∃ k, n = k + 10 := ⟨n - 10, by omega⟩
    rfl

theorem predict_label_lookup_fallback_witness :
    predict ⟨some sampleClassifier11, some sampleEncoders⟩ sampleRequest =
      ⟨200, .jsonSuccess "Unknown Fertilizer"⟩ :=
  ((predict_label_lookup_fallback sampleClassifier11 sampleEncoders
    sampleRequest 25 60 (13/2) 20 15 10 1 rfl
    "Loamy" "Wheat" rfl rfl (by decide) (by decide) 11 rfl).1).trans rfl

/-- C4: when all seven numeric fields coerce, an unrecognized crop value
with a recognized soil value fails with status 400 and the JSON error
naming that field and value, and an unrecognized soil value fails with
status 400 and the JSON error naming that field and value — the check is
symmetric between the two categorical fields (the soil check runs
first). -/
theorem predict_unknown_category_400
    (clf : Classifier) (encs : EncoderSet) (data : RequestData)
    (temp moisture ph nitrogen phosphorous potassium carbon : ℚ)
    (h1 : pyFloat (data.lookup "Temperature") = some temp)
    (h2 : pyFloat (data.lookup "Moisture") = some moisture)
    (h3 : pyFloat (data.lookup "PH") = some ph)
    (h4 : pyFloat (data.lookup "Nitrogen") = some nitrogen)
    (h5 : pyFloat (data.lookup "Phosphorous") = some phosphorous)
    (h6 : pyFloat (data.lookup "Potassium") = some potassium)
    (h7 : pyFloat (data.lookup "Carbon") = some carbon) :
    (isMember (data.lookup "Soil") encs.soil.classes = true →
     isMember (data.lookup "Crop") encs.crop.classes = false →
      predict ⟨some clf, some encs⟩ data =
        ⟨400, .jsonError
          ("Unknown Crop Type: '" ++ pyStr (data.lookup "Crop") ++ "'")⟩) ∧
    (isMember (data.lookup "Soil") encs.soil.classes = false →
      predict ⟨some clf, some encs⟩ data =
        ⟨400, .jsonError
          ("Unknown Soil Type: '" ++ pyStr (data.lookup "Soil") ++ "'")⟩) := by
  have hc7 := coerce7_eq_some data _ _ _ _ _ _ _ h1 h2 h3 h4 h5 h6 h7
  constructor
  · intro hsm hcm
    simp [predict, hc7, hsm, hcm]
  · intro hsm
    simp [predict, hc7, hsm]

theorem predict_unknown_category_400_witness :
    predict ⟨some sampleClassifier, some sampleEncoders⟩ sampleRequestBadCrop =
      ⟨400, .jsonError "Unknown Crop Type: 'Mango'"⟩ ∧
    predict ⟨some sampleClassifier, some sampleEncoders⟩ sampleRequestBadSoil =
      ⟨400, .jsonError "Unknown Soil Type: 'Martian'"⟩ :=
  ⟨((predict_unknown_category_400 sampleClassifier sampleEncoders
      sampleRequestBadCrop 25 60 (13/2) 20 15 10 1
      rfl rfl rfl rfl rfl rfl rfl).1 (by decide) (by decide)).trans
      (by decide),
   ((predict_unknown_category_400 sampleClassifier sampleEncoders
      sampleRequestBadSoil 25 60 (13/2) 20 15 10 1
      rfl rfl rfl rfl rfl rfl rfl).2 (by decide)).trans (by decide)⟩

/-- C5: if at least one of the seven required numeric fields is missing
or fails float coercion, `/predict` answers status 400 with the single
aggregate invalid-input JSON error (one fixed generic message, not one
error per field; the first raising coercion aborts the block). -/
theorem predict_invalid_input_400
    (clf : Classifier) (encs : EncoderSet) (data : RequestData)
    (h : ∃ f ∈ numericFields, pyFloat (data.lookup f) = none) :
    predict ⟨some clf, some encs⟩ data =
      ⟨400, .jsonError
        "Invalid input. Ensure all numerical fields are filled correctly."⟩ := by
  simp [predict, coerce7_none_of_fail data h]

theorem predict_invalid_input_400_witness :
    predict ⟨some sampleClassifier, some sampleEncoders⟩
        sampleRequestBadNumeric =
      ⟨400, .jsonError
        "Invalid input. Ensure all numerical fields are filled correctly."⟩ :=
  predict_invalid_input_400 sampleClassifier sampleEncoders
    sampleRequestBadNumeric ⟨"Temperature", by decide, by decide⟩

/-- C10: when all seven numeric fields coerce but the Soil key is absent
from the body, `/predict` does not report invalid input: the absent
value fails the membership check as an unknown category and the response
is status 400 with the unknown-category error rendering the absent value,
"Unknown Soil Type: 'None'"; likewise an absent Crop key (with a known
soil) yields "Unknown Crop Type: 'None'". -/
theorem predict_absent_categorical_unknown
    (clf : Classifier) (encs : EncoderSet) (data : RequestData)
    (temp moisture ph nitrogen phosphorous potassium carbon : ℚ)
    (h1 : pyFloat (data.lookup "Temperature") = some temp)
    (h2 : pyFloat (data.lookup "Moisture") = some moisture)
    (h3 : pyFloat (data.lookup "PH") = some ph)
    (h4 : pyFloat (data.lookup "Nitrogen") = some nitrogen)
    (h5 : pyFloat (data.lookup "Phosphorous") = some phosphorous)
    (h6 : pyFloat (data.lookup "Potassium") = some potassium)
    (h7 : pyFloat (data.lookup "Carbon") = some carbon) :
    (data.lookup "Soil" = none →
      predict ⟨some clf, some encs⟩ data =
        ⟨400, .jsonError "Unknown Soil Type: 'None'"⟩) ∧
    (∀ soilS, data.lookup "Soil" = some (.str soilS) →
      encs.soil.classes.contains soilS = true →
      data.lookup "Crop" = none →
      predict ⟨some clf, some encs⟩ data =
        ⟨400, .jsonError "Unknown Crop Type: 'None'"⟩) := by
  have hc7 := coerce7_eq_some data _ _ _ _ _ _ _ h1 h2 h3 h4 h5 h6 h7
  constructor
  · intro hs
    simp [predict, hc7, hs, isMember, pyStr]
  · intro soilS hs hmem hcr
    have hmem' : soilS ∈ encs.soil.classes := by simpa using hmem
    simp [predict, hc7, hs, hcr, isMember, hmem', pyStr]

theorem predict_absent_categorical_unknown_witness :
    predict ⟨some sampleClassifier, some sampleEncoders⟩ sampleRequestNoSoil =
      ⟨400, .jsonError "Unknown Soil Type: 'None'"⟩ ∧
    predict ⟨some sampleClassifier, some sampleEncoders⟩ sampleRequestNoCrop =
      ⟨400, .jsonError "Unknown Crop Type: 'None'"⟩ :=
  ⟨(predict_absent_categorical_unknown sampleClassifier sampleEncoders
      sampleRequestNoSoil 25 60 (13/2) 20 15 10 1
      rfl rfl rfl rfl rfl rfl rfl).1 rfl,
   (predict_absent_categorical_unknown sampleClassifier sampleEncoders
      sampleRequestNoCrop 25 60 (13/2) 20 15 10 1
      rfl rfl rfl rfl rfl rfl rfl).2 "Loamy" rfl (by decide) rfl⟩

/-- C8 counterexample: in degraded mode `/recommend` produces a failure
response (status 500) whose body is a rendered HTML error page, not a
JSON object with an `error` key — refuting the claim that every failure
response of every endpoint is such a JSON object. -/
theorem recommend_degraded_not_json :
    (recommend_form ⟨none, none⟩).status = 500 ∧
    isJsonError (recommend_form ⟨none, none⟩).body = false := by
  exact ⟨rfl, rfl⟩

/-- C8 amended: every failure response of `/predict` (status other than
200) is a JSON object with an `error` key and status 400 or 500, while
`/recommend` in degraded mode answers 500 with an HTML error page, not a
JSON object. -/
theorem predict_failures_json_recommend_html
    (st : AssetState) (data : RequestData) :
    ((predict st data).status ≠ 200 →
      isJsonError (predict st data).body = true ∧
      ((predict st data).status = 400 ∨ (predict st data).status = 500)) ∧
    ((st.model = none ∨ st.label_encoders = none) →
      (recommend_form st).status = 500 ∧
      isJsonError (recommend_form st).body = false) := by
  obtain ⟨m, le⟩ := st
  constructor
  · intro h
    cases m with
    | none => cases le <;> simp [predict, isJsonError]
    | some clf =>
      cases le with
      | none => simp [predict, isJsonError]
      | some encs =>
        cases hc : coerce7 data with
        | none => simp [predict, hc, isJsonError]
        | some v =>
          obtain ⟨t, m2, vph, n, p, k, c⟩ := v
          cases hsm : isMember (data.lookup "Soil") encs.soil.classes with
          | false => simp [predict, hc, hsm, isJsonError]
          | true =>
            cases hcm : isMember (data.lookup "Crop") encs.crop.classes with
            | false => simp [predict, hc, hsm, hcm, isJsonError]
            | true =>
              exfalso
              apply h
              simp [predict, hc, hsm, hcm]
  · intro h
    rcases h with h | h <;> subst h <;> simp [recommend_form, isJsonError]

theorem predict_failures_json_recommend_html_witness :
    (isJsonError (predict ⟨some sampleClassifier, some sampleEncoders⟩ []).body
        = true ∧
      ((predict ⟨some sampleClassifier, some sampleEncoders⟩ []).status = 400 ∨
       (predict ⟨some sampleClassifier, some sampleEncoders⟩ []).status = 500)) ∧
    ((recommend_form ⟨some sampleClassifier, none⟩).status = 500 ∧
      isJsonError (recommend_form ⟨some sampleClassifier, none⟩).body = false) :=
  ⟨(predict_failures_json_recommend_html
      ⟨some sampleClassifier, some sampleEncoders⟩ []).1 (by decide),
   (predict_failures_json_recommend_html
      ⟨some sampleClassifier, none⟩ []).2 (Or.inr rfl)⟩

end FertilizerApp
